import Mathlib

/-!
Shallow embedding of the concurrent hierarchical aggregation engine of
`clickup_analyzer.py` (the ClickUp workspace analysis tool).

The remote state reached by the traversal is modelled as the tree of
responses the four endpoints would return during one run: each node carries
the outcome of the single HTTP GET issued for it.  An outcome is either a
raised exception (transport failure, or a body that fails JSON parsing) or
an `HttpResponse` holding the status code and the parsed body.  The source
never inspects `status_code` in any of the four traversal functions; it
calls `.json()` directly on the `requests.get` result, so the embedding
threads the body through `getJson` and keeps the status code only as data.

Python dict results are modelled structurally: the per-level metric dicts
become records with the source's key names as fields, and the engine's
top-level dict (whose keys are emoji-prefixed display labels, or the single
key "error") becomes an association list of string keys to values.

Concurrency: the source submits all sibling subtree aggregations to a
thread pool and folds results via `as_completed`; a child exception
re-raises at `future.result()`.  The embedding runs children in list order
(`mapExcept`), which agrees with the source on every question asked here:
which numeric sums arise (the fold is commutative), and whether an
exception propagates (it does iff some child fails).

Wall-clock time: `time.time()` is read at task-classification time; the
embedding passes the current epoch-millisecond value `now` explicitly.
-/

deriving instance DecidableEq for Except

/-- A value stored in one of the Python result dicts: the engine's
top-level dict maps label keys to integer counts on success and the key
"error" to a message string on failure. -/
inductive Value where
  | nat : Nat → Value
  | str : String → Value
deriving DecidableEq, Repr

/-- The outcome of one `requests.get(...)` whose connection succeeded:
the HTTP status code (never inspected by the traversal functions) and the
result of `.json()` on the body (`Except.error` when the body is not valid
JSON, in which case `.json()` raises). -/
structure HttpResponse (α : Type) where
  status_code : Nat
  body : Except String α
deriving DecidableEq, Repr

/-- One task object of a list's task page, with the fields the source
reads: `status.type` (absent models a missing `status` key or a missing
`type` subfield, both of which the source defaults to the empty string),
`due_date` (absent models a missing key or JSON null; a present due date is
an epoch-millisecond integer — in the source a non-empty decimal string,
which is truthy), and `priority` (absent models a missing key, which the
source defaults to the empty string). -/
structure TaskItem where
  id : String
  statusType : Option String
  due_date : Option Int
  priority : Option String
deriving DecidableEq, Repr

/-- A list node together with the response of `GET list/id/task`.
`Except.error` is a raised exception: transport failure or unparseable
body. -/
structure ListNode where
  id : String
  tasksResp : Except String (HttpResponse (Option (List TaskItem)))
deriving DecidableEq, Repr

/-- A folder node together with the response of `GET folder/id/list`;
the body's optional field is the `lists` array (absent when the JSON object
lacks the key). -/
structure FolderNode where
  id : String
  listsResp : Except String (HttpResponse (Option (List ListNode)))
deriving DecidableEq, Repr

/-- A space node together with the response of `GET space/id/folder`;
the body's optional field is the `folders` array. -/
structure SpaceNode where
  id : String
  foldersResp : Except String (HttpResponse (Option (List FolderNode)))
deriving DecidableEq, Repr

/-- The remote state of one team: the response of `GET team/id/space`;
the body's optional field is the `spaces` array. -/
structure TeamState where
  spacesResp : Except String (HttpResponse (Option (List SpaceNode)))
deriving DecidableEq, Repr

/-- Models `requests.get(url, ...).json()` as the source uses it: a
transport failure raises, an unparseable body raises, and otherwise the
parsed body is returned with the status code ignored. -/
def getJson (r : Except String (HttpResponse α)) : Except String α :=
  match r with
  | .error e => .error e
  | .ok resp => resp.body

/-- Result dict of `fetch_list_details` (source lines 217-222). -/
structure ListMetrics where
  task_count : Nat
  completed_tasks : Nat
  overdue_tasks : Nat
  high_priority_tasks : Nat
deriving DecidableEq, Repr

/-- Result dict of `fetch_folder_details` (source lines 181-187). -/
structure FolderMetrics where
  list_count : Nat
  task_count : Nat
  completed_tasks : Nat
  overdue_tasks : Nat
  high_priority_tasks : Nat
deriving DecidableEq, Repr

/-- Result dict of `fetch_space_details` (source lines 148-155). -/
structure SpaceMetrics where
  folder_count : Nat
  list_count : Nat
  task_count : Nat
  completed_tasks : Nat
  overdue_tasks : Nat
  high_priority_tasks : Nat
deriving DecidableEq, Repr

/-- Models Python str.lower as applied to status type strings:
per-character ASCII lowercasing (status types are ASCII identifiers). -/
def lowerString (s : String) : String :=
  ⟨s.data.map Char.toLower⟩

/-- Source line 209: `task.get("status", ...).get("type", "").lower()`. -/
def statusOf (t : TaskItem) : String :=
  lowerString (t.statusType.getD "")

/-- Contribution of one task to `completed_tasks` (source line 211). -/
def completedContrib (t : TaskItem) : Nat :=
  if ["closed", "done", "completed"].contains (statusOf t) then 1 else 0

/-- Contribution of one task to `overdue_tasks` (source line 212):
1 iff a due date is present (truthy) and strictly below the current
epoch-millisecond time; the task's status is not consulted. -/
def overdueContrib (now : Int) (t : TaskItem) : Nat :=
  match t.due_date with
  | none => 0
  | some d => if d < now then 1 else 0

/-- Contribution of one task to `high_priority_tasks` (source line 213). -/
def highPriorityContrib (t : TaskItem) : Nat :=
  if ["urgent", "high"].contains (t.priority.getD "") then 1 else 0

/-- Embedding of `fetch_list_details`: fetch the task page, default a
missing `tasks` field to the empty list, and fold the per-task
classifications; a raised exception propagates to the caller. -/
def fetch_list_details (now : Int) (lst : ListNode) : Except String ListMetrics :=
  match getJson lst.tasksResp with
  | .error e => .error e
  | .ok mbody =>
      let tasks := mbody.getD []
      .ok {
        task_count := tasks.length
        completed_tasks := (tasks.map completedContrib).sum
        overdue_tasks := (tasks.map (overdueContrib now)).sum
        high_priority_tasks := (tasks.map highPriorityContrib).sum
      }

/-- Runs a fallible aggregation over each child and collects the results;
an exception in any child propagates, mirroring how `future.result()`
re-raises inside the `as_completed` fold. -/
def mapExcept (f : α → Except String β) : List α → Except String (List β)
  | [] => .ok []
  | x :: xs =>
      match f x with
      | .error e => .error e
      | .ok y =>
          match mapExcept f xs with
          | .error e => .error e
          | .ok ys => .ok (y :: ys)

/-- Field-wise sum of sibling list results, as folded by the
`as_completed` loop of `fetch_folder_details` (source lines 174-179). -/
def sumListMetrics (l : List ListMetrics) : ListMetrics :=
  { task_count := (l.map ListMetrics.task_count).sum
    completed_tasks := (l.map ListMetrics.completed_tasks).sum
    overdue_tasks := (l.map ListMetrics.overdue_tasks).sum
    high_priority_tasks := (l.map ListMetrics.high_priority_tasks).sum }

/-- Embedding of `fetch_folder_details`: fetch the folder's lists,
default a missing `lists` field to the empty list, count the immediate
lists, aggregate each list's tasks, and fold the results field-wise. -/
def fetch_folder_details (now : Int) (folder : FolderNode) : Except String FolderMetrics :=
  match getJson folder.listsResp with
  | .error e => .error e
  | .ok mbody =>
      let lists := mbody.getD []
      match mapExcept (fetch_list_details now) lists with
      | .error e => .error e
      | .ok results =>
          let s := sumListMetrics results
          .ok {
            list_count := lists.length
            task_count := s.task_count
            completed_tasks := s.completed_tasks
            overdue_tasks := s.overdue_tasks
            high_priority_tasks := s.high_priority_tasks
          }

/-- Field-wise sum of sibling folder results, as folded by the
`as_completed` loop of `fetch_space_details` (source lines 140-146). -/
def sumFolderMetrics (l : List FolderMetrics) : FolderMetrics :=
  { list_count := (l.map FolderMetrics.list_count).sum
    task_count := (l.map FolderMetrics.task_count).sum
    completed_tasks := (l.map FolderMetrics.completed_tasks).sum
    overdue_tasks := (l.map FolderMetrics.overdue_tasks).sum
    high_priority_tasks := (l.map FolderMetrics.high_priority_tasks).sum }

/-- Embedding of `fetch_space_details`: fetch the space's folders,
default a missing `folders` field to the empty list, count the immediate
folders, aggregate each folder's subtree, and fold the results. -/
def fetch_space_details (now : Int) (space : SpaceNode) : Except String SpaceMetrics :=
  match getJson space.foldersResp with
  | .error e => .error e
  | .ok mbody =>
      let folders := mbody.getD []
      match mapExcept (fetch_folder_details now) folders with
      | .error e => .error e
      | .ok results =>
          let s := sumFolderMetrics results
          .ok {
            folder_count := folders.length
            list_count := s.list_count
            task_count := s.task_count
            completed_tasks := s.completed_tasks
            overdue_tasks := s.overdue_tasks
            high_priority_tasks := s.high_priority_tasks
          }

/-- Field-wise sum of sibling space results, as folded by the
`as_completed` loop of `fetch_workspace_details` (source lines 101-108). -/
def sumSpaceMetrics (l : List SpaceMetrics) : SpaceMetrics :=
  { folder_count := (l.map SpaceMetrics.folder_count).sum
    list_count := (l.map SpaceMetrics.list_count).sum
    task_count := (l.map SpaceMetrics.task_count).sum
    completed_tasks := (l.map SpaceMetrics.completed_tasks).sum
    overdue_tasks := (l.map SpaceMetrics.overdue_tasks).sum
    high_priority_tasks := (l.map SpaceMetrics.high_priority_tasks).sum }

/-- Source line 110: the completion rate computed by
`fetch_workspace_details` (and then discarded; it appears in no returned
dict).  Rational arithmetic stands in for Python float division; at every
value this file evaluates it on, the float result is exact. -/
def task_completion_rate (completed_tasks task_count : Nat) : ℚ :=
  if task_count > 0 then (completed_tasks : ℚ) / (task_count : ℚ) * 100 else 0

/-- The body of the `try` block of `fetch_workspace_details` (source lines
88-119): on success, the returned dict in key order.  Note the six keys:
the completed-task sum and the completion rate are computed but absent. -/
def fetch_workspace_details_core (now : Int) (team : TeamState) :
    Except String (List (String × Value)) :=
  match getJson team.spacesResp with
  | .error e => .error e
  | .ok mbody =>
      let spaces := mbody.getD []
      match mapExcept (fetch_space_details now) spaces with
      | .error e => .error e
      | .ok results =>
          let s := sumSpaceMetrics results
          .ok [
            ("🪐 Spaces", Value.nat spaces.length),
            ("📂 Folders", Value.nat s.folder_count),
            ("🗂️ Lists", Value.nat s.list_count),
            ("📝 Total Tasks", Value.nat s.task_count),
            ("⚠️ Overdue Tasks", Value.nat s.overdue_tasks),
            ("🔥 High Priority Tasks", Value.nat s.high_priority_tasks)
          ]

/-- Embedding of `fetch_workspace_details` (source lines 82-121): the
engine's entry point.  Any exception raised anywhere in the traversal is
caught by the single `except` clause and replaced by a dict holding only
the key "error" (source line 121). -/
def fetch_workspace_details (now : Int) (team : TeamState) : List (String × Value) :=
  match fetch_workspace_details_core now team with
  | .ok r => r
  | .error e => [("error", Value.str ("Exception: " ++ e))]

/-- True when the task fetch of this list raises (transport failure or
unparseable body): the one suspension point of `fetch_list_details`. -/
def listHasFailure (lst : ListNode) : Bool :=
  match getJson lst.tasksResp with
  | .error _ => true
  | .ok _ => false

/-- True when some fetch raises during the aggregation of this folder's
subtree: its own list fetch, or any of its lists' task fetches. -/
def folderHasFailure (folder : FolderNode) : Bool :=
  match getJson folder.listsResp with
  | .error _ => true
  | .ok mbody => (mbody.getD []).any listHasFailure

/-- True when some fetch raises during the aggregation of this space's
subtree. -/
def spaceHasFailure (space : SpaceNode) : Bool :=
  match getJson space.foldersResp with
  | .error _ => true
  | .ok mbody => (mbody.getD []).any folderHasFailure

/-- True when some fetch raises anywhere during the whole traversal of
the team's tree. -/
def teamHasFailure (team : TeamState) : Bool :=
  match getJson team.spacesResp with
  | .error _ => true
  | .ok mbody => (mbody.getD []).any spaceHasFailure

/-- The tasks this list's page delivers (empty when the fetch raises or
the `tasks` field is absent). -/
def listNodeTasks (lst : ListNode) : List TaskItem :=
  match getJson lst.tasksResp with
  | .error _ => []
  | .ok mbody => mbody.getD []

/-- All tasks delivered across this folder's lists. -/
def folderNodeTasks (folder : FolderNode) : List TaskItem :=
  match getJson folder.listsResp with
  | .error _ => []
  | .ok mbody => ((mbody.getD []).map listNodeTasks).flatten

/-- All tasks delivered across this space's folders. -/
def spaceNodeTasks (space : SpaceNode) : List TaskItem :=
  match getJson space.foldersResp with
  | .error _ => []
  | .ok mbody => ((mbody.getD []).map folderNodeTasks).flatten

/-- All tasks delivered across the team's spaces. -/
def teamTasks (team : TeamState) : List TaskItem :=
  match getJson team.spacesResp with
  | .error _ => []
  | .ok mbody => ((mbody.getD []).map spaceNodeTasks).flatten

/-- One `+=` step of the space-level fan-in fold of
`fetch_workspace_details` (source lines 103-108): field-wise addition of
two sibling space results. -/
def addSpaceMetrics (a b : SpaceMetrics) : SpaceMetrics :=
  ⟨a.folder_count + b.folder_count, a.list_count + b.list_count,
   a.task_count + b.task_count, a.completed_tasks + b.completed_tasks,
   a.overdue_tasks + b.overdue_tasks, a.high_priority_tasks + b.high_priority_tasks⟩

/-- One `+=` step of the folder-level fan-in fold of
`fetch_space_details` (source lines 142-146). -/
def addFolderMetrics (a b : FolderMetrics) : FolderMetrics :=
  ⟨a.list_count + b.list_count, a.task_count + b.task_count,
   a.completed_tasks + b.completed_tasks, a.overdue_tasks + b.overdue_tasks,
   a.high_priority_tasks + b.high_priority_tasks⟩

/-- One `+=` step of the list-level fan-in fold of
`fetch_folder_details` (source lines 176-179): field-wise addition of
two sibling list results. -/
def addListMetrics (a b : ListMetrics) : ListMetrics :=
  ⟨a.task_count + b.task_count, a.completed_tasks + b.completed_tasks,
   a.overdue_tasks + b.overdue_tasks, a.high_priority_tasks + b.high_priority_tasks⟩

/-- Fixture: a list whose page holds one completed task. -/
def c1OkList1 : ListNode :=
  ⟨"l1", .ok ⟨200, .ok (some [⟨"t1", some "closed", none, none⟩])⟩⟩

/-- Fixture: a list whose page holds one open, high-priority task. -/
def c1OkList2 : ListNode :=
  ⟨"l2", .ok ⟨200, .ok (some [⟨"t2", some "open", none, some "high"⟩])⟩⟩

/-- Fixture: a list with an empty task page. -/
def c1OkList3 : ListNode := ⟨"l3", .ok ⟨200, .ok (some [])⟩⟩

/-- Fixture: a list whose task fetch raises a transport error. -/
def c1FailList : ListNode := ⟨"l4", .error "boom"⟩

/-- Fixture: a folder with three succeeding lists and one failing one. -/
def c1Folder : FolderNode :=
  ⟨"f1", .ok ⟨200, .ok (some [c1OkList1, c1OkList2, c1OkList3, c1FailList])⟩⟩

/-- Fixture: the space above `c1Folder`. -/
def c1Space : SpaceNode := ⟨"s1", .ok ⟨200, .ok (some [c1Folder])⟩⟩

/-- Fixture: a team in which exactly one list's task fetch fails while
its three sibling lists succeed. -/
def c1Team : TeamState := ⟨.ok ⟨200, .ok (some [c1Space])⟩⟩

/-- Fixture: the space of a fully succeeding team with one folder, one
list and one completed task. -/
def c2Space : SpaceNode :=
  ⟨"s1", .ok ⟨200, .ok (some [⟨"f1", .ok ⟨200, .ok (some
    [⟨"l1", .ok ⟨200, .ok (some [⟨"t1", some "done", none, none⟩])⟩⟩])⟩⟩])⟩⟩

/-- Fixture: a team with one space, one folder, one list and one
completed task; every fetch succeeds. -/
def c2Team : TeamState := ⟨.ok ⟨200, .ok (some [c2Space])⟩⟩

/-- Fixture: a team with a single task due at epoch-millisecond 1000 and
a completed status; all fetches succeed. -/
def c4Team : TeamState :=
  ⟨.ok ⟨200, .ok (some [⟨"s1", .ok ⟨200, .ok (some [⟨"f1", .ok ⟨200, .ok (some
    [⟨"l1", .ok ⟨200, .ok (some [⟨"t1", some "closed", some 1000, none⟩])⟩⟩])⟩⟩])⟩⟩])⟩⟩

theorem mapExcept_isOk (f : α → Except String β) (l : List α) :
    (mapExcept f l).isOk = l.all (fun x => (f x).isOk) := by
  induction l with
  | nil => rfl
  | cons x xs ih =>
      simp only [mapExcept, List.all_cons, ← ih]
      cases f x with
      | error e => simp [Except.isOk, Except.toBool]
      | ok y =>
          cases mapExcept f xs with
          | error e => simp [Except.isOk, Except.toBool]
          | ok ys => simp [Except.isOk, Except.toBool]

theorem mapExcept_congr {f g : α → Except String β} {l : List α}
    (h : ∀ x ∈ l, f x = g x) : mapExcept f l = mapExcept g l := by
  induction l with
  | nil => rfl
  | cons x xs ih =>
      simp only [mapExcept]
      rw [h x (List.mem_cons_self x xs), ih (fun y hy => h y (List.mem_cons_of_mem x hy))]

theorem except_isOk_true_iff {x : Except String α} : x.isOk = true ↔ ∃ y, x = .ok y := by
  cases x <;> simp [Except.isOk, Except.toBool]

theorem except_isOk_false_iff {x : Except String α} : x.isOk = false ↔ ∃ e, x = .error e := by
  cases x <;> simp [Except.isOk, Except.toBool]

theorem mapExcept_ok_iff (f : α → Except String β) (l : List α) :
    (∃ ys, mapExcept f l = .ok ys) ↔ ∀ x ∈ l, ∃ y, f x = .ok y := by
  induction l with
  | nil => simp [mapExcept]
  | cons x xs ih =>
      simp only [mapExcept, List.mem_cons]
      cases hx : f x with
      | error e =>
          constructor
          · rintro ⟨ys, h⟩; cases h
          · intro h
            obtain ⟨y, hy⟩ := h x (Or.inl rfl)
            rw [hx] at hy; cases hy
      | ok y =>
          cases hxs : mapExcept f xs with
          | error e =>
              constructor
              · rintro ⟨ys, h⟩; cases h
              · intro h
                obtain ⟨ys, hys⟩ := ih.mpr (fun z hz => h z (Or.inr hz))
                rw [hxs] at hys; cases hys
          | ok ys =>
              constructor
              · intro _ z hz
                rcases hz with rfl | hz
                · exact ⟨y, hx⟩
                · exact ih.mp ⟨ys, hxs⟩ z hz
              · intro _; exact ⟨y :: ys, rfl⟩

theorem fetch_list_ok_iff (now : Int) (lst : ListNode) :
    (∃ m, fetch_list_details now lst = .ok m) ↔ listHasFailure lst = false := by
  unfold fetch_list_details listHasFailure
  cases getJson lst.tasksResp <;> simp

theorem fetch_folder_ok_iff (now : Int) (folder : FolderNode) :
    (∃ m, fetch_folder_details now folder = .ok m) ↔ folderHasFailure folder = false := by
  unfold fetch_folder_details folderHasFailure
  cases getJson folder.listsResp with
  | error e => simp
  | ok mbody =>
      simp only [List.any_eq_false]
      constructor
      · rintro ⟨m, hm⟩ lst hlst
        have hmap : ∃ ys, mapExcept (fetch_list_details now) (mbody.getD []) = .ok ys := by
          cases hx : mapExcept (fetch_list_details now) (mbody.getD []) with
          | error e => rw [hx] at hm; cases hm
          | ok ys => exact ⟨ys, rfl⟩
        have hall := (mapExcept_ok_iff _ _).mp hmap
        have := (fetch_list_ok_iff now lst).mp (hall lst hlst)
        simp [this]
      · intro h
        obtain ⟨ys, hys⟩ := (mapExcept_ok_iff _ _).mpr
          (fun lst hlst => (fetch_list_ok_iff now lst).mpr (by simpa using h lst hlst))
        exact ⟨_, by rw [hys]⟩

theorem fetch_space_ok_iff (now : Int) (space : SpaceNode) :
    (∃ m, fetch_space_details now space = .ok m) ↔ spaceHasFailure space = false := by
  unfold fetch_space_details spaceHasFailure
  cases getJson space.foldersResp with
  | error e => simp
  | ok mbody =>
      simp only [List.any_eq_false]
      constructor
      · rintro ⟨m, hm⟩ folder hfolder
        have hmap : ∃ ys, mapExcept (fetch_folder_details now) (mbody.getD []) = .ok ys := by
          cases hx : mapExcept (fetch_folder_details now) (mbody.getD []) with
          | error e => rw [hx] at hm; cases hm
          | ok ys => exact ⟨ys, rfl⟩
        have hall := (mapExcept_ok_iff _ _).mp hmap
        have := (fetch_folder_ok_iff now folder).mp (hall folder hfolder)
        simp [this]
      · intro h
        obtain ⟨ys, hys⟩ := (mapExcept_ok_iff _ _).mpr
          (fun folder hfolder => (fetch_folder_ok_iff now folder).mpr (by simpa using h folder hfolder))
        exact ⟨_, by rw [hys]⟩

theorem core_ok_iff (now : Int) (team : TeamState) :
    (∃ r, fetch_workspace_details_core now team = .ok r) ↔ teamHasFailure team = false := by
  unfold fetch_workspace_details_core teamHasFailure
  cases getJson team.spacesResp with
  | error e => simp
  | ok mbody =>
      simp only [List.any_eq_false]
      constructor
      · rintro ⟨r, hr⟩ space hspace
        have hmap : ∃ ys, mapExcept (fetch_space_details now) (mbody.getD []) = .ok ys := by
          cases hx : mapExcept (fetch_space_details now) (mbody.getD []) with
          | error e => rw [hx] at hr; cases hr
          | ok ys => exact ⟨ys, rfl⟩
        have hall := (mapExcept_ok_iff _ _).mp hmap
        have := (fetch_space_ok_iff now space).mp (hall space hspace)
        simp [this]
      · intro h
        obtain ⟨ys, hys⟩ := (mapExcept_ok_iff _ _).mpr
          (fun space hspace => (fetch_space_ok_iff now space).mpr (by simpa using h space hspace))
        exact ⟨_, by rw [hys]⟩

theorem team_failure_result (now : Int) (team : TeamState)
    (h : teamHasFailure team = true) :
    ∃ e, fetch_workspace_details now team =
      [("error", Value.str ("Exception: " ++ e))] := by
  cases hc : fetch_workspace_details_core now team with
  | ok r =>
      have := (core_ok_iff now team).mp ⟨r, hc⟩
      rw [h] at this; cases this
  | error e =>
      exact ⟨e, by unfold fetch_workspace_details; rw [hc]⟩

theorem core_ok_shape (now : Int) (team : TeamState) (r : List (String × Value))
    (h : fetch_workspace_details_core now team = .ok r) :
    ∃ a b c d e f : Nat, r =
      [("🪐 Spaces", Value.nat a), ("📂 Folders", Value.nat b),
       ("🗂️ Lists", Value.nat c), ("📝 Total Tasks", Value.nat d),
       ("⚠️ Overdue Tasks", Value.nat e), ("🔥 High Priority Tasks", Value.nat f)] := by
  unfold fetch_workspace_details_core at h
  cases hg : getJson team.spacesResp with
  | error e => simp only [hg] at h; cases h
  | ok mbody =>
      simp only [hg] at h
      cases hm : mapExcept (fetch_space_details now) (mbody.getD []) with
      | error e => simp only [hm] at h; cases h
      | ok results =>
          simp only [hm, Except.ok.injEq] at h
          exact ⟨_, _, _, _, _, _, h.symm⟩

theorem fetch_list_time_congr (t1 t2 : Int) (lst : ListNode)
    (h : ∀ tk ∈ listNodeTasks lst, overdueContrib t1 tk = overdueContrib t2 tk) :
    fetch_list_details t1 lst = fetch_list_details t2 lst := by
  unfold fetch_list_details
  cases hg : getJson lst.tasksResp with
  | error e => rfl
  | ok mbody =>
      have h2 : ∀ tk ∈ mbody.getD [], overdueContrib t1 tk = overdueContrib t2 tk := by
        intro tk htk
        exact h tk (by simp [listNodeTasks, hg, htk])
      simp only [List.map_congr_left h2]

theorem fetch_folder_time_congr (t1 t2 : Int) (folder : FolderNode)
    (h : ∀ tk ∈ folderNodeTasks folder, overdueContrib t1 tk = overdueContrib t2 tk) :
    fetch_folder_details t1 folder = fetch_folder_details t2 folder := by
  unfold fetch_folder_details
  cases hg : getJson folder.listsResp with
  | error e => rfl
  | ok mbody =>
      have h2 : ∀ lst ∈ mbody.getD [], fetch_list_details t1 lst = fetch_list_details t2 lst := by
        intro lst hlst
        apply fetch_list_time_congr
        intro tk htk
        apply h
        simp only [folderNodeTasks, hg]
        exact List.mem_flatten.mpr ⟨listNodeTasks lst, List.mem_map_of_mem _ hlst, htk⟩
      simp only [mapExcept_congr h2]

theorem fetch_space_time_congr (t1 t2 : Int) (space : SpaceNode)
    (h : ∀ tk ∈ spaceNodeTasks space, overdueContrib t1 tk = overdueContrib t2 tk) :
    fetch_space_details t1 space = fetch_space_details t2 space := by
  unfold fetch_space_details
  cases hg : getJson space.foldersResp with
  | error e => rfl
  | ok mbody =>
      have h2 : ∀ folder ∈ mbody.getD [],
          fetch_folder_details t1 folder = fetch_folder_details t2 folder := by
        intro folder hfolder
        apply fetch_folder_time_congr
        intro tk htk
        apply h
        simp only [spaceNodeTasks, hg]
        exact List.mem_flatten.mpr ⟨folderNodeTasks folder, List.mem_map_of_mem _ hfolder, htk⟩
      simp only [mapExcept_congr h2]

/-- C5: the derived completion rate of the workspace aggregate (source
line 110) equals completedTaskCount / taskCount * 100 when taskCount > 0
and equals 0 when taskCount = 0; for taskCount = 150 and
completedTaskCount = 120 it is exactly 80. -/
theorem c5_completion_rate_formula :
    (∀ completed_tasks task_count : Nat, 0 < task_count →
      task_completion_rate completed_tasks task_count =
        (completed_tasks : ℚ) / (task_count : ℚ) * 100) ∧
    (∀ completed_tasks : Nat, task_completion_rate completed_tasks 0 = 0) ∧
    task_completion_rate 120 150 = 80 := by
  refine ⟨?_, ?_, ?_⟩
  · intro c t ht
    simp [task_completion_rate, ht]
  · intro c
    simp [task_completion_rate]
  · norm_num [task_completion_rate]

/-- Witness for C5 at taskCount 150, completedTaskCount 120. -/
theorem c5_completion_rate_formula_witness :
    0 < 150 ∧ task_completion_rate 120 150 = (120 : ℚ) / (150 : ℚ) * 100 :=
  ⟨by norm_num, c5_completion_rate_formula.1 120 150 (by norm_num)⟩

/-- C6: a task increments the overdue count iff it carries a due date
strictly below the current epoch-millisecond time, independently of the
completion status; in particular a completed task with a past due date
still contributes 1, and the per-list aggregation counts exactly these
per-task contributions. -/
theorem c6_overdue_independent_of_completion :
    ∀ (now : Int) (t : TaskItem),
      (overdueContrib now t = 1 ↔ ∃ d, t.due_date = some d ∧ d < now) ∧
      (∀ s : Option String,
        overdueContrib now ⟨t.id, s, t.due_date, t.priority⟩ = overdueContrib now t) ∧
      (completedContrib t = 1 → ∀ d : Int, t.due_date = some d → d < now →
        overdueContrib now t = 1) ∧
      (∀ (id : String) (st : Nat) (tasks : List TaskItem),
        fetch_list_details now ⟨id, .ok ⟨st, .ok (some tasks)⟩⟩ =
          .ok ⟨tasks.length, (tasks.map completedContrib).sum,
               (tasks.map (overdueContrib now)).sum,
               (tasks.map highPriorityContrib).sum⟩) := by
  intro now t
  refine ⟨?_, fun s => rfl, ?_, fun id st tasks => rfl⟩
  · unfold overdueContrib
    cases t.due_date with
    | none => simp
    | some d =>
        by_cases hd : d < now <;> simp [hd]
  · intro _ d hd hlt
    unfold overdueContrib
    rw [hd]
    simp [hlt]

/-- Witness for C6: a closed task due at 1000 evaluated at time 2000 is
counted both completed and overdue. -/
theorem c6_overdue_independent_of_completion_witness :
    completedContrib ⟨"t1", some "closed", some 1000, none⟩ = 1 ∧
    (⟨"t1", some "closed", some 1000, none⟩ : TaskItem).due_date = some 1000 ∧
    (1000 : Int) < 2000 ∧
    overdueContrib 2000 ⟨"t1", some "closed", some 1000, none⟩ = 1 :=
  ⟨by decide, rfl, by decide,
    (c6_overdue_independent_of_completion 2000
        ⟨"t1", some "closed", some 1000, none⟩).2.2.1 (by decide) 1000 rfl (by decide)⟩

/-- C8: at every level, a JSON-object body lacking the expected array
field (spaces, folders, lists, tasks) behaves exactly as an empty array:
a zero-valued result and no error. -/
theorem c8_missing_array_field_empty :
    ∀ (now : Int) (st : Nat) (lid fid sid : String),
      fetch_list_details now ⟨lid, .ok ⟨st, .ok none⟩⟩ = .ok ⟨0, 0, 0, 0⟩ ∧
      fetch_list_details now ⟨lid, .ok ⟨st, .ok none⟩⟩ =
        fetch_list_details now ⟨lid, .ok ⟨st, .ok (some [])⟩⟩ ∧
      fetch_folder_details now ⟨fid, .ok ⟨st, .ok none⟩⟩ = .ok ⟨0, 0, 0, 0, 0⟩ ∧
      fetch_folder_details now ⟨fid, .ok ⟨st, .ok none⟩⟩ =
        fetch_folder_details now ⟨fid, .ok ⟨st, .ok (some [])⟩⟩ ∧
      fetch_space_details now ⟨sid, .ok ⟨st, .ok none⟩⟩ = .ok ⟨0, 0, 0, 0, 0, 0⟩ ∧
      fetch_space_details now ⟨sid, .ok ⟨st, .ok none⟩⟩ =
        fetch_space_details now ⟨sid, .ok ⟨st, .ok (some [])⟩⟩ ∧
      fetch_workspace_details now ⟨.ok ⟨st, .ok none⟩⟩ =
        [("🪐 Spaces", Value.nat 0), ("📂 Folders", Value.nat 0),
         ("🗂️ Lists", Value.nat 0), ("📝 Total Tasks", Value.nat 0),
         ("⚠️ Overdue Tasks", Value.nat 0), ("🔥 High Priority Tasks", Value.nat 0)] ∧
      fetch_workspace_details now ⟨.ok ⟨st, .ok none⟩⟩ =
        fetch_workspace_details now ⟨.ok ⟨st, .ok (some [])⟩⟩ := by
  intro now st lid fid sid
  exact ⟨rfl, rfl, rfl, rfl, rfl, rfl, rfl, rfl⟩

/-- C10: a task object lacking the status, due_date and priority keys is
classified without error: it adds exactly 1 to the task count and 0 to
each of the completed, overdue and high-priority counts. -/
theorem c10_malformed_task_total :
    ∀ (now : Int) (t : TaskItem),
      t.statusType = none → t.due_date = none → t.priority = none →
      completedContrib t = 0 ∧ overdueContrib now t = 0 ∧ highPriorityContrib t = 0 ∧
      (∀ (id : String) (st : Nat) (rest : List TaskItem),
        fetch_list_details now ⟨id, .ok ⟨st, .ok (some (t :: rest))⟩⟩ =
          .ok ⟨rest.length + 1, (rest.map completedContrib).sum,
               (rest.map (overdueContrib now)).sum,
               (rest.map highPriorityContrib).sum⟩) := by
  intro now t hs hd hp
  have h1 : completedContrib t = 0 := by
    unfold completedContrib statusOf
    rw [hs]
    decide
  have h2 : overdueContrib now t = 0 := by
    unfold overdueContrib
    rw [hd]
  have h3 : highPriorityContrib t = 0 := by
    unfold highPriorityContrib
    rw [hp]
    decide
  refine ⟨h1, h2, h3, ?_⟩
  intro id st rest
  simp [fetch_list_details, getJson, h1, h2, h3, List.sum_cons]

/-- Witness for C10: the page holding one task with no status, due_date
or priority keys aggregates to one counted task and zero
classifications. -/
theorem c10_malformed_task_total_witness :
    fetch_list_details 0 ⟨"l1", .ok ⟨200, .ok (some [⟨"x", none, none, none⟩])⟩⟩ =
      .ok ⟨1, 0, 0, 0⟩ :=
  (c10_malformed_task_total 0 ⟨"x", none, none, none⟩ rfl rfl rfl).2.2.2 "l1" 200 []

/-- C7: the fan-in fold of sibling subtree results is field-wise
addition: one fold step is commutative and associative, the total is the
fold of the steps, and any permutation of the sibling results yields the
same summed record, at every level — the space-level fold of the engine
(source lines 101-108), the folder-level fold of a space (source lines
140-146) and the list-level fold of a folder (source lines 174-179). -/
theorem c7_fold_comm_assoc_perm :
    (∀ a b : SpaceMetrics, addSpaceMetrics a b = addSpaceMetrics b a) ∧
    (∀ a b c : SpaceMetrics,
      addSpaceMetrics (addSpaceMetrics a b) c = addSpaceMetrics a (addSpaceMetrics b c)) ∧
    (∀ (m : SpaceMetrics) (l : List SpaceMetrics),
      sumSpaceMetrics (m :: l) = addSpaceMetrics m (sumSpaceMetrics l)) ∧
    (∀ l1 l2 : List SpaceMetrics, l1.Perm l2 → sumSpaceMetrics l1 = sumSpaceMetrics l2) ∧
    (∀ a b : FolderMetrics, addFolderMetrics a b = addFolderMetrics b a) ∧
    (∀ a b c : FolderMetrics,
      addFolderMetrics (addFolderMetrics a b) c = addFolderMetrics a (addFolderMetrics b c)) ∧
    (∀ (m : FolderMetrics) (l : List FolderMetrics),
      sumFolderMetrics (m :: l) = addFolderMetrics m (sumFolderMetrics l)) ∧
    (∀ l1 l2 : List FolderMetrics, l1.Perm l2 → sumFolderMetrics l1 = sumFolderMetrics l2) ∧
    (∀ a b : ListMetrics, addListMetrics a b = addListMetrics b a) ∧
    (∀ a b c : ListMetrics,
      addListMetrics (addListMetrics a b) c = addListMetrics a (addListMetrics b c)) ∧
    (∀ (m : ListMetrics) (l : List ListMetrics),
      sumListMetrics (m :: l) = addListMetrics m (sumListMetrics l)) ∧
    (∀ l1 l2 : List ListMetrics, l1.Perm l2 → sumListMetrics l1 = sumListMetrics l2) := by
  refine ⟨?_, ?_, ?_, ?_, ?_, ?_, ?_, ?_, ?_, ?_, ?_, ?_⟩
  · intro a b
    simp only [addSpaceMetrics, SpaceMetrics.mk.injEq]
    omega
  · intro a b c
    simp only [addSpaceMetrics, SpaceMetrics.mk.injEq]
    omega
  · intro m l
    simp only [sumSpaceMetrics, addSpaceMetrics, List.map_cons, List.sum_cons]
  · intro l1 l2 hp
    simp only [sumSpaceMetrics, SpaceMetrics.mk.injEq]
    exact ⟨(hp.map _).sum_eq, (hp.map _).sum_eq, (hp.map _).sum_eq,
           (hp.map _).sum_eq, (hp.map _).sum_eq, (hp.map _).sum_eq⟩
  · intro a b
    simp only [addFolderMetrics, FolderMetrics.mk.injEq]
    omega
  · intro a b c
    simp only [addFolderMetrics, FolderMetrics.mk.injEq]
    omega
  · intro m l
    simp only [sumFolderMetrics, addFolderMetrics, List.map_cons, List.sum_cons]
  · intro l1 l2 hp
    simp only [sumFolderMetrics, FolderMetrics.mk.injEq]
    exact ⟨(hp.map _).sum_eq, (hp.map _).sum_eq, (hp.map _).sum_eq,
           (hp.map _).sum_eq, (hp.map _).sum_eq⟩
  · intro a b
    simp only [addListMetrics, ListMetrics.mk.injEq]
    omega
  · intro a b c
    simp only [addListMetrics, ListMetrics.mk.injEq]
    omega
  · intro m l
    simp only [sumListMetrics, addListMetrics, List.map_cons, List.sum_cons]
  · intro l1 l2 hp
    simp only [sumListMetrics, ListMetrics.mk.injEq]
    exact ⟨(hp.map _).sum_eq, (hp.map _).sum_eq, (hp.map _).sum_eq, (hp.map _).sum_eq⟩

/-- Witness for C7: two concrete space results summed in either order,
and two concrete list results summed in either order. -/
theorem c7_fold_comm_assoc_perm_witness :
    (sumSpaceMetrics [⟨1, 2, 3, 4, 5, 6⟩, ⟨6, 5, 4, 3, 2, 1⟩] =
      sumSpaceMetrics [⟨6, 5, 4, 3, 2, 1⟩, ⟨1, 2, 3, 4, 5, 6⟩]) ∧
    (sumListMetrics [⟨7, 3, 2, 1⟩, ⟨4, 4, 0, 2⟩] =
      sumListMetrics [⟨4, 4, 0, 2⟩, ⟨7, 3, 2, 1⟩]) :=
  ⟨c7_fold_comm_assoc_perm.2.2.2.1 _ _
    (List.Perm.swap (⟨6, 5, 4, 3, 2, 1⟩ : SpaceMetrics) ⟨1, 2, 3, 4, 5, 6⟩ []),
   c7_fold_comm_assoc_perm.2.2.2.2.2.2.2.2.2.2.2 _ _
    (List.Perm.swap (⟨4, 4, 0, 2⟩ : ListMetrics) ⟨7, 3, 2, 1⟩ [])⟩

/-- C9: if any fetch raises anywhere during the traversal, the engine's
result is the dictionary holding only the single error entry; when no
fetch raises, the result is the full six-entry metrics dictionary and no
error entry. -/
theorem c9_exception_all_or_nothing :
    ∀ (now : Int) (team : TeamState),
      (teamHasFailure team = true →
        ∃ e, fetch_workspace_details now team =
          [("error", Value.str ("Exception: " ++ e))]) ∧
      (teamHasFailure team = false →
        ∃ a b c d e f : Nat, fetch_workspace_details now team =
          [("🪐 Spaces", Value.nat a), ("📂 Folders", Value.nat b),
           ("🗂️ Lists", Value.nat c), ("📝 Total Tasks", Value.nat d),
           ("⚠️ Overdue Tasks", Value.nat e), ("🔥 High Priority Tasks", Value.nat f)]) := by
  intro now team
  constructor
  · exact team_failure_result now team
  · intro h
    obtain ⟨r, hr⟩ := (core_ok_iff now team).mpr h
    obtain ⟨a, b, c, d, e, f, hshape⟩ := core_ok_shape now team r hr
    refine ⟨a, b, c, d, e, f, ?_⟩
    unfold fetch_workspace_details
    rw [hr, hshape]

/-- Witness for C9: a team whose tree holds one failing list fetch ends
in the single error entry. -/
theorem c9_exception_all_or_nothing_witness :
    teamHasFailure c1Team = true ∧
    ∃ e, fetch_workspace_details 0 c1Team =
      [("error", Value.str ("Exception: " ++ e))] :=
  ⟨by decide, (c9_exception_all_or_nothing 0 c1Team).1 (by decide)⟩

/-- C1 counterexample: with one list's task fetch failing on a transport
error while its three sibling lists succeed, the engine's result is the
single error entry; it does not contain the succeeded siblings' sums. -/
theorem c1_no_partial_sums_cex :
    fetch_workspace_details 0 c1Team = [("error", Value.str "Exception: boom")] := by
  decide

/-- C1 amended: when a reachable list's task fetch fails with a
transport error (its ancestors' fetches having succeeded), the engine
surfaces the failure — the result is a dictionary holding exactly one
error entry and no numeric counts; the failure is never silently
swallowed as zero, but the succeeded siblings' sums are discarded with
it (fail-fast, not partial-tolerant). -/
theorem c1_list_failure_surfaced :
    ∀ (now : Int) (team : TeamState) (sbody : Option (List SpaceNode))
      (space : SpaceNode) (fbody : Option (List FolderNode)) (folder : FolderNode)
      (lbody : Option (List ListNode)) (lst : ListNode) (msg : String),
      getJson team.spacesResp = .ok sbody → space ∈ sbody.getD [] →
      getJson space.foldersResp = .ok fbody → folder ∈ fbody.getD [] →
      getJson folder.listsResp = .ok lbody → lst ∈ lbody.getD [] →
      lst.tasksResp = .error msg →
      ∃ e, fetch_workspace_details now team =
        [("error", Value.str ("Exception: " ++ e))] := by
  intro now team sbody space fbody folder lbody lst msg hs hsm hf hfm hl hlm herr
  apply team_failure_result
  unfold teamHasFailure
  simp only [hs, List.any_eq_true]
  refine ⟨space, hsm, ?_⟩
  unfold spaceHasFailure
  simp only [hf, List.any_eq_true]
  refine ⟨folder, hfm, ?_⟩
  unfold folderHasFailure
  simp only [hl, List.any_eq_true]
  refine ⟨lst, hlm, ?_⟩
  unfold listHasFailure getJson
  simp only [herr]

/-- Witness for C1 on the concrete one-failing-list team. -/
theorem c1_list_failure_surfaced_witness :
    getJson c1Team.spacesResp = .ok (some [c1Space]) ∧
    c1Space ∈ (some [c1Space]).getD [] ∧
    getJson c1Space.foldersResp = .ok (some [c1Folder]) ∧
    c1Folder ∈ (some [c1Folder]).getD [] ∧
    getJson c1Folder.listsResp = .ok (some [c1OkList1, c1OkList2, c1OkList3, c1FailList]) ∧
    c1FailList ∈ (some [c1OkList1, c1OkList2, c1OkList3, c1FailList]).getD [] ∧
    c1FailList.tasksResp = .error "boom" ∧
    ∃ e, fetch_workspace_details 0 c1Team =
      [("error", Value.str ("Exception: " ++ e))] :=
  ⟨rfl, by decide, rfl, by decide, rfl, by decide, rfl,
    c1_list_failure_surfaced 0 c1Team (some [c1Space]) c1Space (some [c1Folder]) c1Folder
      (some [c1OkList1, c1OkList2, c1OkList3, c1FailList]) c1FailList "boom"
      rfl (by decide) rfl (by decide) rfl (by decide) rfl⟩

/-- C2 (code bug): on a fully succeeding run with one completed task,
the space-level aggregation carries completed_tasks = 1, yet the
engine's returned dictionary holds only the six keys Spaces, Folders,
Lists, Total Tasks, Overdue Tasks and High Priority Tasks — no
completed-task count (the completion rate computed at source line 110 is
discarded), so completionRate cannot be derived from the returned
record. -/
theorem c2_completed_count_absent :
    fetch_space_details 0 c2Space = .ok ⟨1, 1, 1, 1, 0, 0⟩ ∧
    fetch_workspace_details 0 c2Team =
      [("🪐 Spaces", Value.nat 1), ("📂 Folders", Value.nat 1),
       ("🗂️ Lists", Value.nat 1), ("📝 Total Tasks", Value.nat 1),
       ("⚠️ Overdue Tasks", Value.nat 0), ("🔥 High Priority Tasks", Value.nat 0)] ∧
    (fetch_workspace_details 0 c2Team).map Prod.fst =
      ["🪐 Spaces", "📂 Folders", "🗂️ Lists", "📝 Total Tasks",
       "⚠️ Overdue Tasks", "🔥 High Priority Tasks"] := by
  refine ⟨by decide, by decide, by decide⟩

/-- C3 counterexample: a root fetch rejected with HTTP 401 whose body is
a JSON object (without a spaces field) does not produce an error — the
engine returns a zero-count metrics record, because the traversal never
inspects the status code. -/
theorem c3_rejected_root_not_error_cex :
    fetch_workspace_details 0 (TeamState.mk (Except.ok ⟨401, Except.ok none⟩)) =
      [("🪐 Spaces", Value.nat 0), ("📂 Folders", Value.nat 0),
       ("🗂️ Lists", Value.nat 0), ("📝 Total Tasks", Value.nat 0),
       ("⚠️ Overdue Tasks", Value.nat 0), ("🔥 High Priority Tasks", Value.nat 0)] := by
  decide

/-- C3 amended: a root-level transport failure, or a root response body
that fails JSON parsing, makes the engine return the structured error
entry instead of a metrics record; but a non-200 rejection whose body is
a JSON object is not detected — the status code is never inspected and
the engine proceeds to report counts (zero when the spaces field is
absent). -/
theorem c3_root_failure_behavior :
    (∀ (now : Int) (team : TeamState) (e : String),
      team.spacesResp = .error e →
      fetch_workspace_details now team = [("error", Value.str ("Exception: " ++ e))]) ∧
    (∀ (now : Int) (st : Nat) (e : String),
      fetch_workspace_details now ⟨.ok ⟨st, .error e⟩⟩ =
        [("error", Value.str ("Exception: " ++ e))]) ∧
    (∀ (now : Int) (st : Nat),
      fetch_workspace_details now ⟨.ok ⟨st, .ok none⟩⟩ =
        [("🪐 Spaces", Value.nat 0), ("📂 Folders", Value.nat 0),
         ("🗂️ Lists", Value.nat 0), ("📝 Total Tasks", Value.nat 0),
         ("⚠️ Overdue Tasks", Value.nat 0), ("🔥 High Priority Tasks", Value.nat 0)]) := by
  refine ⟨?_, fun now st e => rfl, fun now st => rfl⟩
  intro now team e he
  unfold fetch_workspace_details fetch_workspace_details_core getJson
  rw [he]

/-- Witness for C3 at a root transport failure. -/
theorem c3_root_failure_behavior_witness :
    (TeamState.mk (Except.error "timeout")).spacesResp = Except.error "timeout" ∧
    fetch_workspace_details 0 (TeamState.mk (Except.error "timeout")) =
      [("error", Value.str "Exception: timeout")] :=
  ⟨rfl, c3_root_failure_behavior.1 0 (TeamState.mk (Except.error "timeout")) "timeout" rfl⟩

/-- C4 counterexample: the same remote state aggregated at two different
wall-clock times yields different results — the fixture's task is due at
epoch-millisecond 1000, so it is overdue at time 2000 but not at time 0. -/
theorem c4_time_dependent_cex :
    fetch_workspace_details 0 c4Team ≠ fetch_workspace_details 2000 c4Team := by
  decide

/-- C4 amended: the engine's output is a deterministic function of the
remote state and the evaluation time; two runs over an identical remote
state whose evaluation times classify every task's dueness identically
(in particular, two runs at the same time) produce bit-identical
results. -/
theorem c4_time_congruence :
    ∀ (t1 t2 : Int) (team : TeamState),
      (∀ tk ∈ teamTasks team, overdueContrib t1 tk = overdueContrib t2 tk) →
      fetch_workspace_details t1 team = fetch_workspace_details t2 team := by
  intro t1 t2 team h
  unfold fetch_workspace_details fetch_workspace_details_core
  cases hg : getJson team.spacesResp with
  | error e => rfl
  | ok mbody =>
      have h2 : ∀ space ∈ mbody.getD [],
          fetch_space_details t1 space = fetch_space_details t2 space := by
        intro space hspace
        apply fetch_space_time_congr
        intro tk htk
        apply h
        simp only [teamTasks, hg]
        exact List.mem_flatten.mpr ⟨spaceNodeTasks space, List.mem_map_of_mem _ hspace, htk⟩
      simp only [mapExcept_congr h2]

/-- Witness for C4: times 0 and 5 both precede the fixture task's due
date, so the two runs agree. -/
theorem c4_time_congruence_witness :
    (∀ tk ∈ teamTasks c4Team, overdueContrib 0 tk = overdueContrib 5 tk) ∧
    fetch_workspace_details 0 c4Team = fetch_workspace_details 5 c4Team :=
  ⟨by decide, c4_time_congruence 0 5 c4Team (by decide)⟩
